import Mathlib

/-
Verification of the POI classification and clustering pipeline of
`visualizing_urban_areas`.

The classifier side embeds `DataCollector._get_mapped_category` and the
category-collection loop of `DataCollector.info_nearby_op`
(src/scripts/DataCollector.py).  The clustering side embeds the
area-of-interest mask, the per-category dispatch and the concave-hull loop
of `main` in src/scripts/clusterize.py (the module-level script
src/src/clusterize.py has the same per-category body).

Python values are embedded as follows: `str` as `String`, `int` as `ℤ`,
`float` as `ℚ` (only order comparisons on finite decimal literals occur, on
which IEEE doubles and rationals agree), `dict` literals as association
lists looked up with Python's last-binding-wins semantics (`dget`), and
code that can raise as `Except String`.
-/

set_option maxRecDepth 4000

/-- A value of the rule table: Python stores either a single category
string or a list of category strings; `info_nearby_op` distinguishes the
two with `isinstance(mapped, list)`. -/
inductive MapVal where
  | one (s : String) : MapVal
  | many (ss : List String) : MapVal
deriving DecidableEq

/-- The categories carried by one rule-table value (`append` for a single
string, `extend` for a list, in `info_nearby_op`). -/
def mvFlat : MapVal → List String
  | .one s => [s]
  | .many ss => ss

/-- Lookup in a Python `dict` built from a literal list of key/value pairs:
a later binding of the same key overwrites an earlier one (relevant for the
duplicated `boutique` key of the `shop` table). -/
def dget {α : Type} (m : List (String × α)) (k : String) : Option α :=
  m.foldl (fun acc e => if e.1 = k then some e.2 else acc) none

/-- `tags` of one POI: the OSM tag dict, string keys to string values. -/
abbrev Tags : Type := List (String × String)

/-- `tags.get(key)` — first binding; a Python dict has unique keys. -/
def tagsLookup (tags : Tags) (k : String) : Option String :=
  List.lookup k tags

/-- `tags.get(key, default)` with a string default. -/
def tagsGetD (tags : Tags) (k dflt : String) : String :=
  (tagsLookup tags k).getD dflt

/-- The `'amenity'` table of `DataCollector.osm_mapping`. -/
def amenityTable : List (String × MapVal) :=
  [("bbq", .one "Nature"), ("bench", .one "Nature"),
   ("theatre", .one "Ethnic"), ("place_of_worship", .one "Ethnic"),
   ("cinema", .one "Tourist"), ("fountain", .one "Tourist"), ("stage", .one "Tourist"),
   ("theater", .one "Tourist"), ("marketplace", .one "Tourist"), ("public_bath", .one "Tourist"),
   ("cafe", .one "Cafe street"), ("fast_food", .one "Cafe street"), ("restaurant", .one "Cafe street"),
   ("bar", .one "Nightlife"), ("biergarten", .one "Nightlife"), ("brothel", .one "Nightlife"),
   ("casino", .one "Nightlife"), ("gambling", .one "Nightlife"), ("nightclub", .one "Nightlife"),
   ("stripclub", .one "Nightlife"),
   ("lounge", .one "Elite r.e."),
   ("prison", .one "Lower r.e."), ("grave_yard", .one "Lower r.e.")]

/-- The `'building'` table of `DataCollector.osm_mapping`. -/
def buildingTable : List (String × MapVal) :=
  [("dormitory", .one "University"), ("college", .one "University"),
   ("school", .one "University"), ("university", .one "University"),
   ("religious", .one "Ethnic"), ("cathedral", .one "Ethnic"),
   ("church", .one "Ethnic"), ("monastery", .one "Ethnic"),
   ("museum", .one "Tourist"), ("public", .one "Tourist"),
   ("stadium", .one "Tourist"), ("grandstand", .one "Tourist"),
   ("ship", .one "Tourist"), ("tower", .one "Tourist"),
   ("office", .one "Business center"),
   ("hotel", .one "Elite r.e."),
   ("apartments", .one "Upper r.e."), ("commercial", .one "Upper r.e."),
   ("government", .one "Upper r.e."),
   ("residential", .one "Middle r.e."), ("retail", .one "Middle r.e."),
   ("supermarket", .one "Middle r.e."), ("civic", .one "Middle r.e."),
   ("parking", .one "Middle r.e."), ("garages", .one "Middle r.e."),
   ("static_caravan", .one "Lower r.e."), ("warehouse", .one "Lower r.e."),
   ("ruins", .one "Lower r.e."),
   ("bungalow", .one "cottage settlement"), ("cabin", .one "cottage settlement"),
   ("detached", .one "cottage settlement"), ("annexe", .one "cottage settlement"),
   ("farm", .one "cottage settlement"), ("ger", .one "cottage settlement"),
   ("house", .one "cottage settlement"), ("semidetached_house", .one "cottage settlement"),
   ("terrace", .one "cottage settlement")]

/-- The `'club'` table. -/
def clubTable : List (String × MapVal) := [("*", .one "Tourist")]

/-- The `'education'` table. -/
def educationTable : List (String × MapVal) := [("*", .one "University")]

/-- The `'highway'` table. -/
def highwayTable : List (String × MapVal) :=
  [("living_street", .one "Middle r.e."),
   ("tertiary", .one "cottage settlement"),
   ("residential", .one "cottage settlement")]

/-- The `'landcover'` table. -/
def landcoverTable : List (String × MapVal) := [("*", .one "Nature")]

/-- The `'historic'` table. -/
def historicTable : List (String × MapVal) := [("*", .one "Tourist")]

/-- The `'landuse'` table. -/
def landuseTable : List (String × MapVal) := [("*", .one "Nature")]

/-- The `'leisure'` table. -/
def leisureTable : List (String × MapVal) :=
  [("water_park", .many ["Nature", "Tourist"]),
   ("stadium", .many ["Nature", "Tourist"]),
   ("park", .many ["Nature", "Tourist"]),
   ("picnic_table", .many ["Nature", "Tourist"]),
   ("firepit", .many ["Nature", "Tourist"]),
   ("beach_resort", .many ["Nature", "Tourist"]),
   ("swimming_area", .many ["Nature", "Tourist"]),
   ("outdoor_seating", .one "Cafe street")]

/-- The `'man_made'` table. -/
def manMadeTable : List (String × MapVal) :=
  [("advertising", .one "Tourist"),
   ("obelisk", .one "Tourist"),
   ("*", .one "Lower r.e.")]

/-- The `'natural'` table. -/
def naturalTable : List (String × MapVal) := [("*", .one "Nature")]

/-- The `'office'` table. -/
def officeTable : List (String × MapVal) := [("*", .one "Business center")]

/-- The `'shop'` table.  The source dict literal binds the key `boutique`
twice — first to `Downtown`, later to `Elite r.e.`; both pairs are kept
here in source order and `dget` resolves the duplicate the way a Python
dict literal does (last binding wins). -/
def shopTable : List (String × MapVal) :=
  [("boutique", .one "Downtown"), ("jewelry", .one "Downtown"),
   ("leather", .one "Downtown"), ("shoes", .one "Downtown"),
   ("watches", .one "Downtown"), ("perfumery", .one "Downtown"),
   ("butcher", .one "Cafe street"), ("chocolate", .one "Cafe street"),
   ("coffee", .one "Cafe street"), ("seafood", .one "Cafe street"),
   ("alcohol", .one "Cafe street"),
   ("boutique", .one "Elite r.e."),
   ("beauty", .one "Upper r.e."), ("hairdresser", .one "Upper r.e."),
   ("massage", .one "Upper r.e."),
   ("bakery", .one "Middle r.e."), ("convenience", .one "Middle r.e."),
   ("dairy", .one "Middle r.e."), ("supermarket", .one "Middle r.e."),
   ("wholesale", .one "Middle r.e."), ("mall", .one "Middle r.e."),
   ("chemist", .one "Middle r.e."), ("doityourself", .one "Middle r.e."),
   ("second_hand", .one "Lower r.e."), ("variety_store", .one "Lower r.e."),
   ("trade", .one "Lower r.e.")]

/-- The `'tourism'` table. -/
def tourismTable : List (String × MapVal) :=
  [("hotel", .one "Upper r.e."),
   ("hostel", .one "Middle r.e."),
   ("motel", .one "Middle r.e."),
   ("*", .one "Tourist")]

/-- The `'waterway'` table. -/
def waterwayTable : List (String × MapVal) := [("*", .one "Nature")]

/-- `DataCollector.osm_mapping`: the top-level dict, in source order. -/
def osmMapping : List (String × List (String × MapVal)) :=
  [("amenity", amenityTable),
   ("building", buildingTable),
   ("club", clubTable),
   ("education", educationTable),
   ("highway", highwayTable),
   ("landcover", landcoverTable),
   ("historic", historicTable),
   ("landuse", landuseTable),
   ("leisure", leisureTable),
   ("man_made", manMadeTable),
   ("natural", naturalTable),
   ("office", officeTable),
   ("shop", shopTable),
   ("tourism", tourismTable),
   ("waterway", waterwayTable)]

/-- `self.osm_mapping.keys()`, the iteration order of the classification
loop in `info_nearby_op` (Python dict preserves insertion order). -/
def osmKeys : List String := osmMapping.map Prod.fst

/-- Accumulate the value of one decimal digit string, `none` on a
non-digit. -/
def digitsVal (cs : List Char) : Option ℕ :=
  cs.foldl
    (fun acc c =>
      match acc with
      | none => none
      | some n => if c.isDigit then some (10 * n + (c.toNat - 48)) else none)
    (some 0)

/-- Split a character list at the first decimal point. -/
def splitDot : List Char → List Char × Option (List Char)
  | [] => ([], none)
  | c :: t =>
    if c = '.' then ([], some t)
    else
      let r := splitDot t
      (c :: r.1, r.2)

/-- Python `int(s)` on a string: optional sign followed by decimal digits,
`ValueError` otherwise (whitespace trimming, underscores and non-decimal
bases are not modelled; no call site produces them). -/
def pyInt (s : String) : Except String ℤ :=
  let cs := s.toList
  let sd : ℤ × List Char :=
    match cs with
    | c :: t => if c = '-' then (-1, t) else if c = '+' then (1, t) else (1, cs)
    | [] => (1, [])
  if sd.2 = [] then .error "ValueError"
  else
    match digitsVal sd.2 with
    | none => .error "ValueError"
    | some n => .ok (sd.1 * (n : ℤ))

/-- Python `float(s)` on a string: optional sign, decimal digits with an
optional fractional part, `ValueError` otherwise (exponents, `inf`, `nan`
and whitespace trimming are not modelled; no call site produces them). -/
def pyFloat (s : String) : Except String ℚ :=
  let cs := s.toList
  let sd : ℚ × List Char :=
    match cs with
    | c :: t => if c = '-' then (-1, t) else if c = '+' then (1, t) else (1, cs)
    | [] => (1, [])
  let ip := splitDot sd.2
  match ip.2 with
  | none =>
    if ip.1 = [] then .error "ValueError"
    else
      match digitsVal ip.1 with
      | none => .error "ValueError"
      | some n => .ok (sd.1 * (n : ℚ))
  | some fp =>
    if ip.1 = [] ∧ fp = [] then .error "ValueError"
    else
      match digitsVal ip.1, digitsVal fp with
      | some n, some f => .ok (sd.1 * ((n : ℚ) + (f : ℚ) / ((10 : ℚ) ^ fp.length)))
      | _, _ => .error "ValueError"

/-- `float(tags.get(key, 0))`: a missing attribute defaults to the integer
`0`; a present attribute is a string handed to `float`, which can raise. -/
def tagsFloat (tags : Tags) (k : String) : Except String ℚ :=
  match tagsLookup tags k with
  | none => .ok 0
  | some s => pyFloat s

/-- `int(tags.get(key, 0))`: a missing attribute defaults to the integer
`0`; a present attribute is a string handed to `int`, which can raise. -/
def tagsInt (tags : Tags) (k : String) : Except String ℤ :=
  match tagsLookup tags k with
  | none => .ok 0
  | some s => pyInt s

/-- The two material values accepted by the building sub-rules. -/
def glassMaterials : List String := ["glass", "mirrored-glass"]

/-- The attribute-conditioned building sub-rules of
`_get_mapped_category` (the `osm_type == 'building'` block after the table
lookups, src/scripts/DataCollector.py lines 209-243).  Sequential `if
osm_value == ...` blocks on a fixed `osm_value` collapse to an else-chain;
within a block the numeric attributes are converted (and can raise) before
the condition is tested, in source order. -/
def buildingExtra (osmValue : String) (tags : Tags) : Except String (Option MapVal) :=
  if osmValue = "office" then
    let material := (tagsGetD tags "building:material" "").toLower
    match tagsFloat tags "height" with
    | .error e => .error e
    | .ok height =>
      if material ∈ glassMaterials ∨ height > 20 then .ok (some (.one "Business center"))
      else .ok none
  else if osmValue = "hotel" then
    match tagsInt tags "levels" with
    | .error e => .error e
    | .ok levels =>
      let material := (tagsGetD tags "building:material" "").toLower
      match tagsFloat tags "height" with
      | .error e => .error e
      | .ok height =>
        if (levels > 20 ∨ height > 60) ∨ material ∈ glassMaterials then .ok (some (.one "Elite r.e."))
        else .ok none
  else if osmValue = "residential" then
    match tagsInt tags "levels" with
    | .error e => .error e
    | .ok levels =>
      match tagsFloat tags "height" with
      | .error e => .error e
      | .ok height =>
        if levels ≥ 10 ∨ height ≥ 30 then .ok (some (.one "Upper"))
        else if (5 ≤ levels ∧ levels < 10) ∨ (15 ≤ height ∧ height < 30) then .ok (some (.one "Middle"))
        else if levels < 5 ∨ height < 15 then .ok (some (.one "Lower"))
        else .ok none
  else if osmValue = "house" ∧ tagsGetD tags "detached" "no" = "yes" then
    let landuse := (tagsGetD tags "landuse" "").toLower
    if landuse ∈ ["residential", "village", "farmyard"] then .ok (some (.one "Cottage settlement"))
    else .ok none
  else .ok none

/-- `DataCollector._get_mapped_category(osm_type, osm_value, tags)`:
unknown tag key → `None` (warning-logged); wildcard entry used only when
the value has no exact entry; exact entry returned as is; otherwise, for
`building` with truthy `tags`, the attribute-conditioned sub-rules run. -/
def getMappedCategory (osmType osmValue : String) (tags : Tags) :
    Except String (Option MapVal) :=
  match dget osmMapping osmType with
  | none => .ok none
  | some mapping =>
    if (dget mapping "*").isSome ∧ dget mapping osmValue = none then
      .ok (dget mapping "*")
    else
      match dget mapping osmValue with
      | some mv => .ok (some mv)
      | none =>
        if osmType = "building" then
          if tags = ([] : Tags) then .ok none else buildingExtra osmValue tags
        else .ok none

/-- The category-collection loop of `info_nearby_op`: for each key of
`osm_mapping` present in the POI's tags, look the value up and append the
mapped category (`extend` for a list value, `append` for a single one; a
falsy `None` result contributes nothing — the tables hold no other falsy
values).  An exception raised inside the loop propagates. -/
def collectCats (tags : Tags) : List String → List String → Except String (List String)
  | [], acc => .ok acc
  | k :: ks, acc =>
    match tagsLookup tags k with
    | none => collectCats tags ks acc
    | some v =>
      match getMappedCategory k v tags with
      | .error e => .error e
      | .ok none => collectCats tags ks acc
      | .ok (some (.one s)) => collectCats tags ks (acc ++ [s])
      | .ok (some (.many ss)) => collectCats tags ks (acc ++ ss)

/-- The raw category list of one POI, before deduplication. -/
def classifyRaw (tags : Tags) : Except String (List String) :=
  collectCats tags osmKeys []

/-- `list(set(mapped_categories))` of `info_nearby_op`: the distinct
categories.  Python's set order is unspecified; the embedding uses
`List.dedup` and only membership and duplicate-freedom are relied on. -/
def classifyTags (tags : Tags) : Except String (List String) :=
  match classifyRaw tags with
  | .error e => .error e
  | .ok l => .ok l.dedup

/-- A point of one category's point set: `(latitude, longitude)`, the
column order of `X = np.array(df[['Latitude', 'Longitude']])`. -/
abbrev Point : Type := ℚ × ℚ

/-- The area-of-interest mask of `main` (src/scripts/clusterize.py lines
335-337): inclusive rectangular bounds on raw latitude/longitude. -/
def inBounds (latMin latMax lonMin lonMax : ℚ) (p : Point) : Bool :=
  decide (latMin ≤ p.1) && decide (p.1 ≤ latMax) &&
  decide (lonMin ≤ p.2) && decide (p.2 ≤ lonMax)

/-- `X_cat[mask]`: the subsequence of points inside the bounding box. -/
def filterAOI (latMin latMax lonMin lonMax : ℚ) (pts : List Point) : List Point :=
  pts.filter (inBounds latMin latMax lonMin lonMax)

/-- `np.unique(labels)`: the distinct labels, sorted ascending. -/
def uniqueLabels (ls : List ℤ) : List ℤ :=
  List.insertionSort (· ≤ ·) ls.dedup

/-- `X_cat_subset[labels == label]`: the points carrying one label. -/
def selectLabel (pts : List Point) (labels : List ℤ) (l : ℤ) : List Point :=
  (pts.zip labels).filterMap (fun q => if q.2 = l then some q.1 else none)

/-- Twice the signed area of the triangle `o p q`; zero iff collinear. -/
def cross (o p q : Point) : ℚ :=
  (p.1 - o.1) * (q.2 - o.2) - (p.2 - o.2) * (q.1 - o.1)

/-- Whether every triple of the point list is collinear. -/
def collinearPts (ps : List Point) : Bool :=
  ps.all (fun o => ps.all (fun p => ps.all (fun q => decide (cross o p q = 0))))

/-- Modelled from the spec: `alphashape(points, alpha)` and the shapely
`Polygon.exterior` it returns are external libraries, not part of this
repository.  Per the spec's hull-extractor contract, an input with fewer
than 3 points or with all points collinear (degenerate) yields a geometry
without an `exterior` attribute — read as `none` here — and any successful
hull is a polygon whose exterior coordinate ring is closed, the first
coordinate repeated as the last.  Which vertices the hull keeps is
abstracted: the model closes the input point list into a ring. -/
def alphashapeExterior (ps : List Point) (_alpha : ℚ) : Option (List Point) :=
  if ps.length ≤ 2 then none
  else if collinearPts ps then none
  else
    match ps with
    | [] => none
    | p :: rest => some (p :: (rest ++ [p]))

/-- The `alpha = 0.5` default of `create_concave_hull`. -/
def defaultAlpha : ℚ := 1 / 2

/-- `create_concave_hull(points, alpha)` (src/scripts/clusterize.py lines
110-126): return the exterior coordinates of the alpha shape, or `None`
when the geometry has no exterior (the `AttributeError` branch). -/
def createConcaveHull (points : List Point) (alpha : ℚ) : Option (List Point) :=
  alphashapeExterior points alpha

/-- The hull loop of `main` (src/scripts/clusterize.py lines 354-361): for
every label of `np.unique(labels)` — noise label included — compute the
concave hull of that label's points and record it when it succeeds. -/
def hullLoop (subset : List Point) (labels : List ℤ) : List (ℤ × List Point) :=
  (uniqueLabels labels).filterMap
    (fun l => Option.map (fun h => (l, h)) (createConcaveHull (selectLabel subset labels l) defaultAlpha))

/-- One entry of `config['clustering_techniques']`: the per-category
`{method, params}` pair.  Parameter values are opaque to the dispatcher
(forwarded verbatim), embedded as rationals. -/
structure Technique where
  method : String
  params : List (String × ℚ)

/-- The keys of the `models` dict of `create_clustering_model`. -/
def knownMethods : List String :=
  ["kmeans", "optics", "hdbscan", "spectral", "gmm", "affinity"]

/-- `create_clustering_model(method, params)` (src/scripts/clusterize.py
lines 69-88): `models[method]` raises `KeyError` for an unknown
identifier.  The constructed sklearn estimator itself is external; the
embedding records only success or failure of the dispatch. -/
def createClusteringModel (method : String) : Except String Unit :=
  if method ∈ knownMethods then .ok () else .error "KeyError"

/-- The fitted labelling produced by the selected external sklearn
estimator (`model.fit_predict`): one integer label per input point,
abstracted as an oracle parameter of the pipeline. -/
abbrev Clusterer : Type := String → List (String × ℚ) → List Point → List ℤ

/-- The body of the per-category loop of `main` (src/scripts/clusterize.py
lines 330-363): look the category up in `clustering_techniques` — a
missing entry makes `technique['method']` raise `TypeError` on `None` —
filter to the area of interest, skip when fewer than 10 points remain
(`.ok none`), dispatch the clustering model — unknown method raises
`KeyError` — then label the subset and run the hull loop. -/
def processCategory (techniques : List (String × Technique)) (cl : Clusterer)
    (latMin latMax lonMin lonMax : ℚ) (category : String) (pts : List Point) :
    Except String (Option (List (ℤ × List Point))) :=
  match dget techniques category with
  | none => .error "TypeError"
  | some t =>
    let subset := filterAOI latMin latMax lonMin lonMax pts
    if subset.length < 10 then .ok none
    else
      match createClusteringModel t.method with
      | .error e => .error e
      | .ok _ =>
        let labels := cl t.method t.params subset
        .ok (some (hullLoop subset labels))

/-- The category loop of `main`: process the categories in order,
collecting `clusters_info`; an exception raised for one category aborts
the whole pipeline (there is no handler around the loop body). -/
def runPipeline (techniques : List (String × Technique)) (cl : Clusterer)
    (latMin latMax lonMin lonMax : ℚ) :
    List (String × List Point) → List (String × List (ℤ × List Point)) →
    Except String (List (String × List (ℤ × List Point)))
  | [], acc => .ok acc
  | (cat, pts) :: rest, acc =>
    match processCategory techniques cl latMin latMax lonMin lonMax cat pts with
    | .error e => .error e
    | .ok none => runPipeline techniques cl latMin latMax lonMin lonMax rest acc
    | .ok (some info) => runPipeline techniques cl latMin latMax lonMin lonMax rest (acc ++ [(cat, info)])

/-- A concrete clusterer assigning every point the label `0`; used to
instantiate the oracle in closed statements. -/
def zeroClusterer : Clusterer := fun _ _ pts => pts.map (fun _ => 0)

/-- The value-level content of `_get_mapped_category`: table lookup with
wildcard fallback.  Used only to state that the building sub-rules are
unreachable; the claims are about `getMappedCategory` itself. -/
def getMappedPure (osmType osmValue : String) : Option MapVal :=
  match dget osmMapping osmType with
  | none => none
  | some mapping =>
    if (dget mapping "*").isSome ∧ dget mapping osmValue = none then dget mapping "*"
    else dget mapping osmValue

/-- The categories one tag key contributes inside the collection loop. -/
def contrib (tags : Tags) (k : String) : List String :=
  match tagsLookup tags k with
  | none => []
  | some v =>
    match getMappedCategory k v tags with
    | .ok (some mv) => mvFlat mv
    | _ => []

/-- The raw category list the loop produces for one POI. -/
def rawCats (tags : Tags) : List String :=
  osmKeys.foldl (fun a k => a ++ contrib tags k) []

/-- Auxiliary fold characterisation for `dget`. -/
lemma dget_foldl_mem {α : Type} (m : List (String × α)) (acc : Option α) (k : String) (x : α)
    (h : m.foldl (fun acc e => if e.1 = k then some e.2 else acc) acc = some x) :
    x ∈ m.map Prod.snd ∨ acc = some x := by
  induction m generalizing acc with
  | nil => exact Or.inr h
  | cons e t ih =>
    rw [List.foldl_cons] at h
    rcases ih _ h with hm | hacc
    · exact Or.inl (by simp [hm])
    · by_cases he : e.1 = k
      · rw [if_pos he] at hacc
        exact Or.inl (by simp [(Option.some.inj hacc).symm])
      · rw [if_neg he] at hacc
        exact Or.inr hacc

/-- A successful dict lookup returns one of the dict's values. -/
lemma dget_mem {α : Type} (m : List (String × α)) (k : String) (x : α)
    (h : dget m k = some x) : x ∈ m.map Prod.snd := by
  rcases dget_foldl_mem m none k x h with hm | hacc
  · exact hm
  · exact absurd hacc (by simp)

/-- A building value with no exact table entry is none of the four values
inspected by the attribute sub-rules, so the sub-rules fall through to
`None` without ever parsing a numeric attribute. -/
lemma buildingExtra_skip (v : String) (tags : Tags) (h : dget buildingTable v = none) :
    buildingExtra v tags = .ok none := by
  have ho : ¬ v = "office" := by rintro rfl; revert h; decide
  have hh : ¬ v = "hotel" := by rintro rfl; revert h; decide
  have hr : ¬ v = "residential" := by rintro rfl; revert h; decide
  have hs : ¬ v = "house" := by rintro rfl; revert h; decide
  simp only [buildingExtra, if_neg ho, if_neg hh, if_neg hr]
  rw [if_neg (fun hc => hs hc.1)]

/-- The top-level mapping binds `building` to the building table. -/
lemma osmMapping_building : dget osmMapping "building" = some buildingTable := rfl

/-- `_get_mapped_category` never raises and equals its table-lookup
content: every numeric parse sits behind a value test (`office`, `hotel`,
`residential`, `house`) that the preceding exact-entry lookup has already
discharged, so the attribute sub-rules always fall through to `None`. -/
lemma getMapped_eq_pure (t v : String) (tags : Tags) :
    getMappedCategory t v tags = Except.ok (getMappedPure t v) := by
  unfold getMappedCategory getMappedPure
  cases hm : dget osmMapping t with
  | none => rfl
  | some mapping =>
    dsimp only
    by_cases hw : (dget mapping "*").isSome ∧ dget mapping v = none
    · rw [if_pos hw, if_pos hw]
    · rw [if_neg hw, if_neg hw]
      cases hv : dget mapping v with
      | some mv => rfl
      | none =>
        dsimp only
        by_cases hb : t = "building"
        · subst hb
          have hmap : mapping = buildingTable := by
            rw [osmMapping_building] at hm
            exact (Option.some.inj hm).symm
          rw [if_pos rfl]
          by_cases ht : tags = ([] : Tags)
          · rw [if_pos ht]
          · rw [if_neg ht, buildingExtra_skip v tags (hmap ▸ hv)]
        · rw [if_neg hb]

/-- `_get_mapped_category` never raises. -/
lemma getMapped_ok (t v : String) (tags : Tags) :
    ∃ r, getMappedCategory t v tags = Except.ok r :=
  ⟨getMappedPure t v, getMapped_eq_pure t v tags⟩

/-- `_get_mapped_category` is independent of the `tags` argument. -/
lemma getMapped_tags_indep (t v : String) (tags₁ tags₂ : Tags) :
    getMappedCategory t v tags₁ = getMappedCategory t v tags₂ := by
  rw [getMapped_eq_pure, getMapped_eq_pure]

/-- Any mapped value returned by `_get_mapped_category` is a value of the
looked-up key's own table: the building sub-rules are unreachable, so no
other category source exists. -/
lemma getMapped_range (t v : String) (tags : Tags) (mv : MapVal)
    (h : getMappedCategory t v tags = .ok (some mv)) :
    ∃ m, dget osmMapping t = some m ∧ mv ∈ m.map Prod.snd := by
  rw [getMapped_eq_pure] at h
  have hp : getMappedPure t v = some mv := Except.ok.inj h
  unfold getMappedPure at hp
  revert hp
  cases hm : dget osmMapping t with
  | none => intro hp; exact absurd hp (by simp)
  | some mapping =>
    intro hp
    dsimp only at hp
    refine ⟨mapping, rfl, ?_⟩
    by_cases hw : (dget mapping "*").isSome ∧ dget mapping v = none
    · rw [if_pos hw] at hp
      exact dget_mem mapping "*" mv hp
    · rw [if_neg hw] at hp
      exact dget_mem mapping v mv hp

/-- One step of the collection loop appends that key's contribution. -/
lemma collectCats_step (tags : Tags) (k : String) (ks acc : List String) :
    collectCats tags (k :: ks) acc = collectCats tags ks (acc ++ contrib tags k) := by
  simp only [collectCats, contrib]
  cases hv : tagsLookup tags k with
  | none => rw [List.append_nil]
  | some v =>
    dsimp only
    rcases getMapped_ok k v tags with ⟨r, hr⟩
    rw [hr]
    match r with
    | none => rw [List.append_nil]
    | some (.one s) => rfl
    | some (.many ss) => rfl

/-- The collection loop never raises and folds the contributions. -/
lemma collectCats_eq (tags : Tags) :
    ∀ (ks : List String) (acc : List String),
      collectCats tags ks acc = .ok (ks.foldl (fun a k => a ++ contrib tags k) acc) := by
  intro ks
  induction ks with
  | nil => intro acc; rfl
  | cons k ks ih => intro acc; rw [collectCats_step, ih, List.foldl_cons]

/-- The classification loop evaluates to the fold of contributions. -/
lemma classifyRaw_eq (tags : Tags) : classifyRaw tags = .ok (rawCats tags) :=
  collectCats_eq tags osmKeys []

/-- Membership in an append-accumulating fold. -/
lemma mem_foldl_append (f : String → List String) :
    ∀ (ks : List String) (acc : List String) (s : String),
      s ∈ ks.foldl (fun a k => a ++ f k) acc ↔ s ∈ acc ∨ ∃ k, k ∈ ks ∧ s ∈ f k := by
  intro ks
  induction ks with
  | nil => simp
  | cons k ks ih =>
    intro acc s
    rw [List.foldl_cons, ih]
    simp only [List.mem_append, List.mem_cons]
    constructor
    · rintro ((h | h) | ⟨k', hk', hs⟩)
      · exact Or.inl h
      · exact Or.inr ⟨k, Or.inl rfl, h⟩
      · exact Or.inr ⟨k', Or.inr hk', hs⟩
    · rintro (h | ⟨k', (rfl | hk'), hs⟩)
      · exact Or.inl (Or.inl h)
      · exact Or.inl (Or.inr hs)
      · exact Or.inr ⟨k', hk', hs⟩

/-- If no value of a key's table carries a given category, that key never
contributes the category. -/
lemma contrib_excl (k : String) (m : List (String × MapVal)) (bad : String)
    (hm : dget osmMapping k = some m)
    (hno : ∀ mv ∈ m.map Prod.snd, bad ∉ mvFlat mv) :
    ∀ tags : Tags, bad ∉ contrib tags k := by
  intro tags hmem
  unfold contrib at hmem
  revert hmem
  cases hv : tagsLookup tags k with
  | none => intro hmem; exact absurd hmem (List.not_mem_nil bad)
  | some v =>
    intro hmem
    dsimp only at hmem
    revert hmem
    cases hg : getMappedCategory k v tags with
    | error e => intro hmem; exact absurd hmem (List.not_mem_nil bad)
    | ok r =>
      match r with
      | none => intro hmem; exact absurd hmem (List.not_mem_nil bad)
      | some mv =>
        intro hmem
        obtain ⟨m', hm', hmv⟩ := getMapped_range k v tags mv hg
        rw [hm] at hm'
        exact hno mv ((Option.some.inj hm') ▸ hmv) hmem

/-- Filtering twice with one mask is filtering once. -/
lemma filterAOI_idem (a b c d : ℚ) (pts : List Point) :
    filterAOI a b c d (filterAOI a b c d pts) = filterAOI a b c d pts := by
  unfold filterAOI
  rw [List.filter_filter]
  simp [Bool.and_self]

/-- Membership in the area-of-interest subset: inclusive bounds. -/
lemma mem_filterAOI (a b c d : ℚ) (pts : List Point) (p : Point) :
    p ∈ filterAOI a b c d pts ↔
      p ∈ pts ∧ (a ≤ p.1 ∧ p.1 ≤ b ∧ c ≤ p.2 ∧ p.2 ≤ d) := by
  unfold filterAOI inBounds
  rw [List.mem_filter]
  simp [and_assoc]

/-- `np.unique` keeps exactly the labels that occur. -/
lemma mem_uniqueLabels (ls : List ℤ) (l : ℤ) : l ∈ uniqueLabels ls ↔ l ∈ ls := by
  unfold uniqueLabels
  rw [(List.perm_insertionSort _ _).mem_iff, List.mem_dedup]

/-- An entry is emitted by the hull loop exactly when its label occurs and
its own hull succeeds; entries of different labels are independent. -/
lemma hullLoop_mem (pts : List Point) (labels : List ℤ) (l : ℤ) (r : List Point) :
    (l, r) ∈ hullLoop pts labels ↔
      l ∈ uniqueLabels labels ∧
        createConcaveHull (selectLabel pts labels l) defaultAlpha = some r := by
  unfold hullLoop
  rw [List.mem_filterMap]
  constructor
  · rintro ⟨l', hl', hmap⟩
    rcases Option.map_eq_some'.mp hmap with ⟨h, hh, heq⟩
    have h1 : l' = l := congrArg Prod.fst heq
    have h2 : h = r := congrArg Prod.snd heq
    subst h1; subst h2
    exact ⟨hl', hh⟩
  · rintro ⟨hl, hh⟩
    exact ⟨l, hl, by rw [hh]; rfl⟩

/-- An exception in one category's processing aborts the whole loop. -/
lemma runPipeline_error (techniques : List (String × Technique)) (cl : Clusterer)
    (a b c d : ℚ) :
    ∀ (cats : List (String × List Point)) (acc : List (String × List (ℤ × List Point)))
      (cat : String) (pts : List Point) (e : String),
      (cat, pts) ∈ cats →
      processCategory techniques cl a b c d cat pts = .error e →
      ∃ e', runPipeline techniques cl a b c d cats acc = .error e' := by
  intro cats
  induction cats with
  | nil => intro acc cat pts e h; exact absurd h (List.not_mem_nil _)
  | cons hd tl ih =>
    obtain ⟨c0, p0⟩ := hd
    intro acc cat pts e hmem hproc
    rcases List.mem_cons.mp hmem with heq | hmem'
    · have hc : cat = c0 := congrArg Prod.fst heq
      have hp : pts = p0 := congrArg Prod.snd heq
      subst hc; subst hp
      exact ⟨e, by simp only [runPipeline]; rw [hproc]⟩
    · simp only [runPipeline]
      cases hres : processCategory techniques cl a b c d c0 p0 with
      | error e0 => exact ⟨e0, rfl⟩
      | ok r =>
        match r with
        | none => exact ih acc cat pts e hmem' hproc
        | some info => exact ih (acc ++ [(c0, info)]) cat pts e hmem' hproc

/-- A present tag key contributes exactly the flattened mapped value. -/
lemma contrib_of_lookup (k v : String) (tags : Tags) (h : tagsLookup tags k = some v)
    (mv : MapVal) (hg : getMappedCategory k v tags = .ok (some mv)) :
    contrib tags k = mvFlat mv := by
  unfold contrib
  rw [h]
  dsimp only
  rw [hg]

/-- The classification loop result in terms of the fold of contributions. -/
lemma classifyTags_eq (tags : Tags) : classifyTags tags = .ok (rawCats tags).dedup := by
  unfold classifyTags
  rw [classifyRaw_eq]

/-- C3 (confirmed): classification never raises an exception, and the
`height`/`levels` attributes — present, absent, malformed or not — cannot
change the result (so a malformed or missing numeric attribute acts
exactly like the value 0).  This holds because the numeric parses sit in
the building sub-rules, which the exact-entry lookups make unreachable. -/
theorem spec_C3_never_raises (tags : Tags) :
    (∃ cats, classifyTags tags = Except.ok cats) ∧
    (∀ t v, ∃ r, getMappedCategory t v tags = Except.ok r) ∧
    (∀ t v hs ls : String,
      getMappedCategory t v (("height", hs) :: ("levels", ls) :: tags) =
        getMappedCategory t v tags) :=
  ⟨⟨(rawCats tags).dedup, classifyTags_eq tags⟩,
   fun t v => getMapped_ok t v tags,
   fun t v _ _ => getMapped_tags_indep t v _ tags⟩

/-- C2 (code_bug, code evaluated at the failing inputs): the exact table
entry `building → residential → Middle r.e.` matches before the
levels/height tier sub-rules, which are therefore unreachable; a
12-level, a 7-level and a 2-level residential building all classify as
"Middle r.e.", not as the tiered categories the spec describes. -/
theorem spec_C2_residential_tiers_dead :
    getMappedCategory "building" "residential"
        [("building", "residential"), ("levels", "12")] =
      Except.ok (some (.one "Middle r.e.")) ∧
    getMappedCategory "building" "residential"
        [("building", "residential"), ("levels", "7")] =
      Except.ok (some (.one "Middle r.e.")) ∧
    getMappedCategory "building" "residential"
        [("building", "residential"), ("levels", "2")] =
      Except.ok (some (.one "Middle r.e.")) :=
  ⟨rfl, rfl, rfl⟩

/-- C5 (confirmed): for a building value with an exact rule-table entry
(office, hotel, residential, house included), the classification result
does not depend on the other tags, so the attribute-conditioned sub-rules
never influence the returned category. -/
theorem spec_C5_exact_entry_tag_independent (v : String) (tags₁ tags₂ : Tags)
    (_h : (dget buildingTable v).isSome = true) :
    getMappedCategory "building" v tags₁ = getMappedCategory "building" v tags₂ :=
  getMapped_tags_indep "building" v tags₁ tags₂

/-- Witness for C5 at `office` with conflicting attribute tags. -/
theorem spec_C5_witness :
    (dget buildingTable "office").isSome = true ∧
    getMappedCategory "building" "office"
        [("building:material", "glass"), ("height", "25")] =
      getMappedCategory "building" "office" [] :=
  ⟨rfl, spec_C5_exact_entry_tag_independent "office"
    [("building:material", "glass"), ("height", "25")] [] rfl⟩

/-- C8 (confirmed): an exact-value rule wins over a wildcard rule — the
wildcard branch fires only when the value has no exact entry. -/
theorem spec_C8_exact_beats_wildcard (key v : String) (tags : Tags)
    (m : List (String × MapVal)) (mv w : MapVal)
    (hm : dget osmMapping key = some m) :
    (dget m v = some mv → getMappedCategory key v tags = Except.ok (some mv)) ∧
    (dget m v = none → dget m "*" = some w →
      getMappedCategory key v tags = Except.ok (some w)) := by
  constructor
  · intro hv
    rw [getMapped_eq_pure]
    unfold getMappedPure
    rw [hm]
    dsimp only
    have hw : ¬((dget m "*").isSome = true ∧ dget m v = none) := by
      rintro ⟨-, hc⟩
      rw [hv] at hc
      exact Option.noConfusion hc
    rw [if_neg hw, hv]
  · intro hv hw
    rw [getMapped_eq_pure]
    unfold getMappedPure
    rw [hm]
    dsimp only
    have hcond : (dget m "*").isSome = true ∧ dget m v = none := ⟨by rw [hw]; rfl, hv⟩
    rw [if_pos hcond, hw]

/-- Witness for C8 in the tourism table: `hotel` takes its exact entry
"Upper r.e." rather than the wildcard "Tourist"; a value without an exact
entry takes the wildcard. -/
theorem spec_C8_witness :
    getMappedCategory "tourism" "hotel" [] = Except.ok (some (.one "Upper r.e.")) ∧
    getMappedCategory "tourism" "guest_house" [] = Except.ok (some (.one "Tourist")) :=
  ⟨(spec_C8_exact_beats_wildcard "tourism" "hotel" [] tourismTable
      (.one "Upper r.e.") (.one "Tourist") rfl).1 rfl,
   (spec_C8_exact_beats_wildcard "tourism" "guest_house" [] tourismTable
      (.one "Upper r.e.") (.one "Tourist") rfl).2 rfl rfl⟩

/-- C7 (confirmed): a POI tagged `leisure=park` classifies into both
"Nature" and "Tourist", and the categories collected over all tag keys
are unioned with duplicates removed. -/
theorem spec_C7_park_fanout (tags : Tags) (raw : List String)
    (hpark : tagsLookup tags "leisure" = some "park")
    (hraw : classifyRaw tags = Except.ok raw) :
    classifyTags tags = Except.ok raw.dedup ∧
    "Nature" ∈ raw.dedup ∧ "Tourist" ∈ raw.dedup ∧
    raw.dedup.Nodup ∧ (∀ s, s ∈ raw.dedup ↔ s ∈ raw) := by
  have hr : raw = rawCats tags := by
    rw [classifyRaw_eq] at hraw
    exact (Except.ok.inj hraw).symm
  subst hr
  have hcl : contrib tags "leisure" = ["Nature", "Tourist"] :=
    contrib_of_lookup "leisure" "park" tags hpark (.many ["Nature", "Tourist"]) rfl
  have hmem : ∀ s ∈ ["Nature", "Tourist"], s ∈ rawCats tags := by
    intro s hs
    unfold rawCats
    rw [mem_foldl_append]
    exact Or.inr ⟨"leisure", by decide, hcl ▸ hs⟩
  refine ⟨classifyTags_eq tags, ?_, ?_, List.nodup_dedup _, fun s => List.mem_dedup⟩
  · exact List.mem_dedup.mpr (hmem "Nature" (by decide))
  · exact List.mem_dedup.mpr (hmem "Tourist" (by decide))

/-- Witness for C7 at the single-tag POI `leisure=park`. -/
theorem spec_C7_witness :
    classifyTags [("leisure", "park")] =
      Except.ok (["Nature", "Tourist"] : List String).dedup ∧
    "Nature" ∈ (["Nature", "Tourist"] : List String).dedup ∧
    "Tourist" ∈ (["Nature", "Tourist"] : List String).dedup := by
  have h := spec_C7_park_fanout [("leisure", "park")] ["Nature", "Tourist"] rfl rfl
  exact ⟨h.1, h.2.1, h.2.2.1⟩

/-- C10 (confirmed): a POI tagged `shop=boutique` classifies as
"Elite r.e." and can never produce "Downtown": the later `boutique`
binding in the shop dict literal overwrites the earlier Downtown one, and
no other table value carries "Downtown". -/
theorem spec_C10_boutique_never_downtown (tags : Tags) (raw : List String)
    (hb : tagsLookup tags "shop" = some "boutique")
    (hraw : classifyRaw tags = Except.ok raw) :
    classifyTags tags = Except.ok raw.dedup ∧
    "Elite r.e." ∈ raw.dedup ∧ "Downtown" ∉ raw.dedup := by
  have hr : raw = rawCats tags := by
    rw [classifyRaw_eq] at hraw
    exact (Except.ok.inj hraw).symm
  subst hr
  have hcs : contrib tags "shop" = ["Elite r.e."] :=
    contrib_of_lookup "shop" "boutique" tags hb (.one "Elite r.e.") rfl
  refine ⟨classifyTags_eq tags, ?_, ?_⟩
  · apply List.mem_dedup.mpr
    unfold rawCats
    rw [mem_foldl_append]
    refine Or.inr ⟨"shop", by decide, ?_⟩
    rw [hcs]
    decide
  · intro hdt
    have hdt' := List.mem_dedup.mp hdt
    unfold rawCats at hdt'
    rw [mem_foldl_append] at hdt'
    rcases hdt' with h0 | ⟨k, hk, hs⟩
    · exact absurd h0 (List.not_mem_nil _)
    · have hk15 : k = "amenity" ∨ k = "building" ∨ k = "club" ∨ k = "education" ∨
          k = "highway" ∨ k = "landcover" ∨ k = "historic" ∨ k = "landuse" ∨
          k = "leisure" ∨ k = "man_made" ∨ k = "natural" ∨ k = "office" ∨
          k = "shop" ∨ k = "tourism" ∨ k = "waterway" := by
        simpa [osmKeys, osmMapping] using hk
      rcases hk15 with rfl|rfl|rfl|rfl|rfl|rfl|rfl|rfl|rfl|rfl|rfl|rfl|rfl|rfl|rfl
      · exact contrib_excl "amenity" amenityTable "Downtown" rfl (by decide) tags hs
      · exact contrib_excl "building" buildingTable "Downtown" rfl (by decide) tags hs
      · exact contrib_excl "club" clubTable "Downtown" rfl (by decide) tags hs
      · exact contrib_excl "education" educationTable "Downtown" rfl (by decide) tags hs
      · exact contrib_excl "highway" highwayTable "Downtown" rfl (by decide) tags hs
      · exact contrib_excl "landcover" landcoverTable "Downtown" rfl (by decide) tags hs
      · exact contrib_excl "historic" historicTable "Downtown" rfl (by decide) tags hs
      · exact contrib_excl "landuse" landuseTable "Downtown" rfl (by decide) tags hs
      · exact contrib_excl "leisure" leisureTable "Downtown" rfl (by decide) tags hs
      · exact contrib_excl "man_made" manMadeTable "Downtown" rfl (by decide) tags hs
      · exact contrib_excl "natural" naturalTable "Downtown" rfl (by decide) tags hs
      · exact contrib_excl "office" officeTable "Downtown" rfl (by decide) tags hs
      · rw [hcs] at hs
        exact absurd hs (by decide)
      · exact contrib_excl "tourism" tourismTable "Downtown" rfl (by decide) tags hs
      · exact contrib_excl "waterway" waterwayTable "Downtown" rfl (by decide) tags hs

/-- Witness for C10 at the single-tag POI `shop=boutique`. -/
theorem spec_C10_witness :
    "Elite r.e." ∈ (["Elite r.e."] : List String).dedup ∧
    "Downtown" ∉ (["Elite r.e."] : List String).dedup := by
  have h := spec_C10_boutique_never_downtown [("shop", "boutique")] ["Elite r.e."] rfl rfl
  exact ⟨h.2.1, h.2.2⟩

/-- C9 (confirmed): the area-of-interest filter is idempotent, and its
bounds are inclusive — a point lying exactly on a bound (satisfying the
non-strict inequalities) is kept. -/
theorem spec_C9_filter_idempotent (a b c d : ℚ) (pts : List Point) :
    filterAOI a b c d (filterAOI a b c d pts) = filterAOI a b c d pts ∧
    ∀ p : Point, p ∈ filterAOI a b c d pts ↔
      p ∈ pts ∧ (a ≤ p.1 ∧ p.1 ≤ b ∧ c ≤ p.2 ∧ p.2 ≤ d) :=
  ⟨filterAOI_idem a b c d pts, mem_filterAOI a b c d pts⟩

/-- C6 (confirmed): hull extraction returns none for a cluster of at most
2 points or with all points collinear; for 3 or more non-collinear points
it returns a closed ring (first coordinate equals last); and each
cluster's emitted entry depends only on its own points, so a degenerate
cluster never affects its siblings. -/
theorem spec_C6_hull_degenerate (pts : List Point) :
    ((pts.length ≤ 2 ∨ collinearPts pts = true) →
      createConcaveHull pts defaultAlpha = none) ∧
    (3 ≤ pts.length → collinearPts pts = false →
      ∃ r, createConcaveHull pts defaultAlpha = some r ∧ r.head? = r.getLast?) ∧
    (∀ (labels : List ℤ) (l : ℤ) (r : List Point),
      (l, r) ∈ hullLoop pts labels ↔
        l ∈ uniqueLabels labels ∧
          createConcaveHull (selectLabel pts labels l) defaultAlpha = some r) := by
  refine ⟨?_, ?_, fun labels l r => hullLoop_mem pts labels l r⟩
  · intro h
    unfold createConcaveHull alphashapeExterior
    rcases h with h | h
    · rw [if_pos h]
    · by_cases h2 : pts.length ≤ 2
      · rw [if_pos h2]
      · rw [if_neg h2, if_pos h]
  · intro h3 hcol
    unfold createConcaveHull alphashapeExterior
    have h2 : ¬ pts.length ≤ 2 := by omega
    rw [if_neg h2, if_neg (by rw [hcol]; exact Bool.false_ne_true)]
    cases pts with
    | nil => simp at h3
    | cons p rest =>
      refine ⟨p :: (rest ++ [p]), rfl, ?_⟩
      rw [show p :: (rest ++ [p]) = (p :: rest) ++ [p] from rfl, List.getLast?_concat]
      rfl

/-- Witness for C6: three collinear points yield none; three non-collinear
points yield a closed ring. -/
theorem spec_C6_witness :
    createConcaveHull [((0 : ℚ), (0 : ℚ)), (1, 1), (2, 2)] defaultAlpha = none ∧
    ∃ r, createConcaveHull [((0 : ℚ), (0 : ℚ)), (0, 1), (1, 0)] defaultAlpha = some r ∧
      r.head? = r.getLast? :=
  ⟨(spec_C6_hull_degenerate _).1 (Or.inr (by norm_num [collinearPts, cross])),
   (spec_C6_hull_degenerate _).2.1 (by norm_num)
     (by norm_num [collinearPts, cross])⟩

/-- C4 (counterexample): a clustering result consisting only of the noise
label `-1` on three non-collinear points makes the hull loop emit a
boundary for the noise label — noise points are not excluded. -/
theorem spec_C4_counterexample :
    hullLoop [((0 : ℚ), (0 : ℚ)), (0, 1), (1, 0)] [-1, -1, -1] =
      [(-1, [((0 : ℚ), (0 : ℚ)), (0, 1), (1, 0), (0, 0)])] := by
  norm_num [hullLoop, uniqueLabels, List.insertionSort, List.dedup, selectLabel,
    createConcaveHull, alphashapeExterior, collinearPts, cross, List.filterMap, List.zip,
    List.zipWith, defaultAlpha]

/-- C4 (amended): the hull loop treats the reserved noise label `-1` like
any other label: an entry is emitted for a label exactly when the label
occurs and its own hull succeeds, and in particular a noise cluster whose
hull succeeds is emitted. -/
theorem spec_C4_noise_not_excluded (pts : List Point) (labels : List ℤ)
    (l : ℤ) (r : List Point) :
    ((l, r) ∈ hullLoop pts labels ↔
      l ∈ uniqueLabels labels ∧
        createConcaveHull (selectLabel pts labels l) defaultAlpha = some r) ∧
    ((-1 : ℤ) ∈ labels →
      createConcaveHull (selectLabel pts labels (-1)) defaultAlpha = some r →
      (-1, r) ∈ hullLoop pts labels) := by
  refine ⟨hullLoop_mem pts labels l r, fun hmem hhull => ?_⟩
  exact (hullLoop_mem pts labels (-1) r).mpr
    ⟨(mem_uniqueLabels labels (-1)).mpr hmem, hhull⟩

/-- Witness for C4: the noise-only clustering of three points is emitted. -/
theorem spec_C4_witness :
    ((-1 : ℤ), [((0 : ℚ), (0 : ℚ)), (0, 1), (1, 0), (0, 0)]) ∈
      hullLoop [((0 : ℚ), (0 : ℚ)), (0, 1), (1, 0)] [-1, -1, -1] :=
  (spec_C4_noise_not_excluded [((0 : ℚ), (0 : ℚ)), (0, 1), (1, 0)] [-1, -1, -1]
      (-1) [((0 : ℚ), (0 : ℚ)), (0, 1), (1, 0), (0, 0)]).2
    (by norm_num)
    (by norm_num [createConcaveHull, alphashapeExterior, collinearPts, cross,
      selectLabel, List.filterMap, List.zip, List.zipWith])

/-- C1 (counterexample): a category present in the point data but absent
from the clustering configuration does not get skipped — the pipeline
aborts with the `TypeError` raised by subscripting `None`. -/
theorem spec_C1_counterexample :
    runPipeline ([] : List (String × Technique)) zeroClusterer 0 1 0 1
      [("Nature", [])] [] = Except.error "TypeError" := rfl

/-- C1 (amended): a category with no clustering-configuration entry makes
the per-category step raise `TypeError`; a category whose entry names an
unknown algorithm identifier (and that survives the size check) makes it
raise `KeyError`; and either exception aborts the whole pipeline instead
of skipping the category. -/
theorem spec_C1_config_error_aborts (techniques : List (String × Technique))
    (cl : Clusterer) (a b c d : ℚ) (cat : String) (pts : List Point)
    (pre post : List (String × List Point)) :
    (dget techniques cat = none →
      processCategory techniques cl a b c d cat pts = Except.error "TypeError") ∧
    (∀ t, dget techniques cat = some t → t.method ∉ knownMethods →
      ¬(filterAOI a b c d pts).length < 10 →
      processCategory techniques cl a b c d cat pts = Except.error "KeyError") ∧
    (∀ e, processCategory techniques cl a b c d cat pts = Except.error e →
      ∃ e', runPipeline techniques cl a b c d (pre ++ (cat, pts) :: post) [] =
        Except.error e') := by
  refine ⟨?_, ?_, ?_⟩
  · intro h
    unfold processCategory
    rw [h]
  · intro t ht hmeth hlen
    unfold processCategory
    rw [ht]
    dsimp only
    rw [if_neg hlen]
    have hkm : createClusteringModel t.method = Except.error "KeyError" := by
      unfold createClusteringModel
      rw [if_neg hmeth]
    rw [hkm]
  · intro e he
    exact runPipeline_error techniques cl a b c d (pre ++ (cat, pts) :: post) [] cat pts e
      (List.mem_append.mpr (Or.inr (List.mem_cons_self _ _))) he

/-- Witness for C1: the empty configuration and the category "Nature". -/
theorem spec_C1_witness :
    processCategory ([] : List (String × Technique)) zeroClusterer 0 1 0 1 "Nature" [] =
      Except.error "TypeError" ∧
    ∃ e', runPipeline ([] : List (String × Technique)) zeroClusterer 0 1 0 1
        [("Nature", [])] [] = Except.error e' := by
  have h := spec_C1_config_error_aborts ([] : List (String × Technique)) zeroClusterer
    0 1 0 1 "Nature" [] [] []
  exact ⟨h.1 rfl, h.2.2 "TypeError" (h.1 rfl)⟩
